import Mathlib

/-!
Verification of the generation-orchestration core of the repository
(`src/services/geminiService.ts` plus its UI caller for video).

The TypeScript service is shallowly embedded: payload assembly, model
selection, per-call result extraction and the `Promise.all` batch
aggregation become pure Lean functions; the asynchronous parts
(credential gate ordering, the video poll loop) are modelled as an
explicit event trace and a fuel-indexed loop over an environment that
supplies backend responses.
-/

namespace Gemini

/-- Model identifiers, from the constants at the top of the service. -/
def MODEL_NANO_BANANA : String := "gemini-2.5-flash-image"

def MODEL_PRO_IMAGE : String := "gemini-3-pro-image-preview"

def MODEL_VEO_FAST : String := "veo-3.1-fast-generate-preview"

/-- A binary image payload plus media type, as passed in from the UI. -/
structure ImageData where
  base64 : String
  mimeType : String
deriving DecidableEq

/-- The `AspectRatio` enum of `types.ts` (enum name shortened). -/
inductive Aspect
  | square
  | standard
  | landscape
  | portrait
  | custom
deriving DecidableEq

/-- The string value of each enum member (`'1:1'`, `'4:3'`, `'16:9'`,
`'9:16'`, `'CUSTOM'`), used when the code casts the enum to a string. -/
def Aspect.toStr : Aspect → String
  | .square => "1:1"
  | .standard => "4:3"
  | .landscape => "16:9"
  | .portrait => "9:16"
  | .custom => "CUSTOM"

/-- The `ImageResolution` enum of `types.ts`. -/
inductive ImageResolution
  | res1K
  | res2K
  | res4K
deriving DecidableEq

/-- The string value of each `ImageResolution` member. -/
def ImageResolution.toStr : ImageResolution → String
  | .res1K => "1K"
  | .res2K => "2K"
  | .res4K => "4K"

/-- `GenerateImageOptions` from the service.  Width and height are
optional numbers; JavaScript truthiness on them is modelled explicitly. -/
structure GenerateImageOptions where
  prompt : String
  aspect : Aspect
  width : Option Nat
  height : Option Nat
  resolution : ImageResolution
  refImages : List ImageData
  contextImage : Option ImageData
deriving DecidableEq

/-- JavaScript truthiness of an optional number: `undefined` and `0`
are falsy. -/
def numTruthy : Option Nat → Bool
  | none => false
  | some n => n != 0

/-- JavaScript truthiness of a string: only the empty string is falsy. -/
def strTruthy (s : String) : Bool := s != ""

/-- `usePro = options.resolution !== ImageResolution.RES_1K` (line 42). -/
def usePro (o : GenerateImageOptions) : Bool :=
  o.resolution != ImageResolution.res1K

/-- The model chosen on line 49:
`usePro ? MODEL_PRO_IMAGE : MODEL_NANO_BANANA`, as a function of the
resolution tier alone (the spec calls this `selectImageModel`). -/
def selectImageModel (r : ImageResolution) : String :=
  if r != ImageResolution.res1K then MODEL_PRO_IMAGE else MODEL_NANO_BANANA

/-- One content part of the outgoing request: either inline binary data
with a media type, or text. -/
inductive ContentPart
  | inline (data : String) (mimeType : String)
  | text (t : String)
deriving DecidableEq

/-- The part-assembly of lines 52-75: start from an empty array, push
each reference image in order, push the context image when present,
push the text prompt last. -/
def buildParts (o : GenerateImageOptions) : List ContentPart :=
  let ps : List ContentPart := []
  let ps := o.refImages.foldl
    (fun acc img => acc ++ [ContentPart.inline img.base64 img.mimeType]) ps
  let ps :=
    match o.contextImage with
    | some img => ps ++ [ContentPart.inline img.base64 img.mimeType]
    | none => ps
  ps ++ [ContentPart.text o.prompt]

/-- The aspect-ratio string of lines 78-86: the enum's string value,
except that `CUSTOM` becomes `"w:h"` when width and height are both
truthy and `"1:1"` otherwise. -/
def ratioStr (o : GenerateImageOptions) : String :=
  if o.aspect = Aspect.custom then
    if numTruthy o.width && numTruthy o.height then
      toString (o.width.getD 0) ++ ":" ++ toString (o.height.getD 0)
    else
      "1:1"
  else
    o.aspect.toStr

/-- The `imageConfig` object of lines 88-96: always an aspect-ratio
string, plus an `imageSize` field only when the Pro model is in use. -/
structure ImageConfig where
  aspectStr : String
  imageSize : Option String
deriving DecidableEq

/-- Builds the config of lines 88-96. -/
def buildConfig (o : GenerateImageOptions) : ImageConfig :=
  { aspectStr := ratioStr o
  , imageSize :=
      if usePro o then some o.resolution.toStr else none }

/-- The full request payload handed to `client.models.generateContent`. -/
structure ImagePayload where
  model : String
  parts : List ContentPart
  config : ImageConfig
deriving DecidableEq

/-- Assembles the payload exactly as `generateImages` does per call. -/
def buildImagePayload (o : GenerateImageOptions) : ImagePayload :=
  { model := selectImageModel o.resolution
  , parts := buildParts o
  , config := buildConfig o }

/-- The inline-data object of a response part
(`part.inlineData`): an optional media type and the base64 data. -/
structure RespInline where
  mimeType : Option String
  data : String
deriving DecidableEq

/-- One content part of a backend response; only the `inlineData`
field matters to the extraction code. -/
structure RespPart where
  inlineData : Option RespInline
deriving DecidableEq

/-- `candidate.content`, with its optional `parts` array. -/
structure RespContent where
  parts : Option (List RespPart)
deriving DecidableEq

/-- One candidate of a backend response. -/
structure Candidate where
  content : Option RespContent
deriving DecidableEq

/-- A backend response: an optional candidates array
(`response.candidates?`). -/
structure GenResponse where
  candidates : Option (List Candidate)
deriving DecidableEq

/-- The failures the service can surface.  `noImageData` and
`noVideoUri` are its two thrown errors; `backend` stands for a failure
of the backend call itself, rethrown unchanged (lines 114-117). -/
inductive GenError
  | noImageData
  | noVideoUri
  | backend (msg : String)
deriving DecidableEq

/-- The loop condition on line 108:
`part.inlineData && part.inlineData.data` (both must be truthy). -/
def partTruthy (p : RespPart) : Bool :=
  match p.inlineData with
  | some d => strTruthy d.data
  | none => false

/-- The in-order scan of lines 107-111: the first response part whose
inline data is present and truthy. -/
def firstInlinePart : List RespPart → Option RespInline
  | [] => none
  | p :: rest =>
    match p.inlineData with
    | some d => if strTruthy d.data then some d else firstInlinePart rest
    | none => firstInlinePart rest

/-- The data URL of line 109:
the media type defaults to `image/png` when absent or empty. -/
def dataUrlOf (d : RespInline) : String :=
  "data:" ++
    (match d.mimeType with
     | some m => if strTruthy m then m else "image/png"
     | none => "image/png") ++
    ";base64," ++ d.data

/-- Per-call result extraction, lines 106-113: look only at
`response.candidates?.[0]?.content?.parts`; return the data URL of the
first truthy inline part, or fail with the no-image-data error. -/
def extractImage (r : GenResponse) : Except GenError String :=
  match r.candidates with
  | none => .error GenError.noImageData
  | some [] => .error GenError.noImageData
  | some (c :: _) =>
    match c.content with
    | none => .error GenError.noImageData
    | some ct =>
      match ct.parts with
      | none => .error GenError.noImageData
      | some ps =>
        match firstInlinePart ps with
        | some d => .ok (dataUrlOf d)
        | none => .error GenError.noImageData

/-- `Promise.all` over already-settled outcomes: the whole list of
values when every member succeeded, otherwise the first failure. -/
def promiseAll : List (Except GenError String) → Except GenError (List String)
  | [] => .ok []
  | .error e :: _ => .error e
  | .ok v :: rest => (promiseAll rest).map (fun vs => v :: vs)

/-- The first failure among a list of settled outcomes. -/
def firstErr : List (Except GenError String) → Option GenError
  | [] => none
  | .error e :: _ => some e
  | .ok _ :: rest => firstErr rest

/-- The environment of `generateImages`: for each concurrent call index
it yields the backend's outcome for the assembled payload — either a
response or a transport-level failure. -/
structure Env where
  backend : ImagePayload → Nat → Except GenError GenResponse

/-- The observable events of one `generateImages` run, for ordering
properties: one credential-gate invocation, or the issuing of the i-th
backend call. -/
inductive Event
  | ensureKey
  | backendCall (i : Nat)
deriving DecidableEq

/-- The settled outcome of each of the `count` concurrent calls of
lines 51-118: backend failure is rethrown, otherwise the response goes
through result extraction. -/
def callResults (env : Env) (count : Nat) (o : GenerateImageOptions) :
    List (Except GenError String) :=
  (List.range count).map fun i =>
    match env.backend (buildImagePayload o) i with
    | .error e => .error e
    | .ok r => extractImage r

/-- The whole of `generateImages` (lines 37-121): the event trace (the
gate runs first, and only for the Pro model, before the `count` calls
are issued) and the `Promise.all` aggregation of the call outcomes. -/
def generateImagesRun (env : Env) (count : Nat) (o : GenerateImageOptions) :
    List Event × Except GenError (List String) :=
  ((if usePro o then [Event.ensureKey] else []) ++
      (List.range count).map Event.backendCall,
   promiseAll (callResults env count o))

/-- The two aspect ratios the video path allows (`'16:9' | '9:16'`). -/
inductive VideoAspect
  | wide
  | tall
deriving DecidableEq

/-- The string value of a video aspect ratio. -/
def VideoAspect.toStr : VideoAspect → String
  | .wide => "16:9"
  | .tall => "9:16"

/-- `GenerateVideoOptions` from the service. -/
structure GenerateVideoOptions where
  prompt : String
  inputImage : Option ImageData
  aspect : VideoAspect
deriving DecidableEq

/-- The payload of lines 134-151: fixed model, the caller's prompt,
one output at fixed 720p, the aspect ratio verbatim and the optional
input image. -/
structure VideoPayload where
  model : String
  prompt : String
  numberOfVideos : Nat
  resolutionStr : String
  aspectStr : String
  image : Option ImageData
deriving DecidableEq

/-- Assembles the video payload of lines 134-151. -/
def buildVideoPayload (o : GenerateVideoOptions) : VideoPayload :=
  { model := MODEL_VEO_FAST
  , prompt := o.prompt
  , numberOfVideos := 1
  , resolutionStr := "720p"
  , aspectStr := o.aspect.toStr
  , image := o.inputImage }

/-- `video.uri` of the response chain. -/
structure VideoRef where
  uri : Option String
deriving DecidableEq

/-- One entry of `response.generatedVideos`. -/
structure GeneratedVideoEntry where
  video : Option VideoRef
deriving DecidableEq

/-- `operation.response`. -/
structure VideoOpResponse where
  generatedVideos : Option (List GeneratedVideoEntry)
deriving DecidableEq

/-- A video job handle (`operation`): a completion flag and, once the
backend fills it in, a response payload. -/
structure VideoOp where
  done : Bool
  response : Option VideoOpResponse
deriving DecidableEq

/-- The observable events of the poll loop: sleeping for a number of
milliseconds, and one poll call keyed by the prior handle. -/
inductive VidEvent
  | sleep (ms : Nat)
  | pollCall
deriving DecidableEq

/-- The poll loop of lines 156-159, with explicit fuel: while the
handle is not done, sleep 5000 ms and refresh the handle by applying
the poll function to the prior handle.  Returns the event trace and
the final handle, or `none` when the fuel runs out first. -/
def pollLoop (pollFn : VideoOp → VideoOp) :
    Nat → VideoOp → Option (List VidEvent × VideoOp)
  | 0, op => if op.done then some ([], op) else none
  | fuel + 1, op =>
    if op.done then some ([], op)
    else
      match pollLoop pollFn fuel (pollFn op) with
      | some (tr, fin) =>
        some (VidEvent.sleep 5000 :: VidEvent.pollCall :: tr, fin)
      | none => none

/-- The optional-chain read of line 161:
`operation.response?.generatedVideos?.[0]?.video?.uri`, failing with
the no-video-URI error when any link is absent or the URI is falsy. -/
def extractVideoUri (op : VideoOp) : Except GenError String :=
  match op.response with
  | none => .error GenError.noVideoUri
  | some r =>
    match r.generatedVideos with
    | none => .error GenError.noVideoUri
    | some [] => .error GenError.noVideoUri
    | some (g :: _) =>
      match g.video with
      | none => .error GenError.noVideoUri
      | some v =>
        match v.uri with
        | none => .error GenError.noVideoUri
        | some u => if strTruthy u then .ok u else .error GenError.noVideoUri

/-- Line 168: append the access token to the returned reference,
`uri ++ "&key=" ++ apiKey`. -/
def appendKey (apiKey u : String) : String := u ++ "&key=" ++ apiKey

/-- The environment of `generateVideo`: job submission for a payload,
the poll call, and the process-wide API key. -/
structure VideoEnv where
  submit : VideoPayload → VideoOp
  pollFn : VideoOp → VideoOp
  apiKey : String

/-- The whole of `generateVideo` (lines 130-174) with explicit fuel:
submit the assembled payload, poll until done, then extract the URI
and append the key. -/
def generateVideoRun (env : VideoEnv) (fuel : Nat) (o : GenerateVideoOptions) :
    Option (List VidEvent × Except GenError String) :=
  match pollLoop env.pollFn fuel (env.submit (buildVideoPayload o)) with
  | none => none
  | some (tr, fin) =>
    some (tr, (extractVideoUri fin).map (appendKey env.apiKey))

/-- Modelled from `src/unnamed/part_001` lines 79-83
(`VideoGenerator.handleGenerate`): the options handed to
`generateVideo`, with the JavaScript fallback
`prompt || 'Animate this image'`. -/
def handleGenerateOptions (uiPrompt : String) (img : Option ImageData)
    (a : VideoAspect) : GenerateVideoOptions :=
  { prompt := if uiPrompt = "" then "Animate this image" else uiPrompt
  , inputImage := img
  , aspect := a }

/-! ### Concrete sample values used by witnesses -/

/-- A baseline-tier request: 1K resolution, square ratio, no images. -/
def optsBase : GenerateImageOptions :=
  { prompt := "p", aspect := Aspect.square, width := none, height := none
  , resolution := ImageResolution.res1K, refImages := [], contextImage := none }

/-- A Pro-tier request: 2K resolution. -/
def optsPro : GenerateImageOptions :=
  { optsBase with resolution := ImageResolution.res2K }

/-- A custom-ratio request with width 1280 and height 720. -/
def optsCustomWH : GenerateImageOptions :=
  { optsBase with aspect := Aspect.custom, width := some 1280, height := some 720 }

/-- A custom-ratio request with no width and no height. -/
def optsCustomNone : GenerateImageOptions :=
  { optsBase with aspect := Aspect.custom }

/-- A response part carrying inline PNG data. -/
def pngPart (dat : String) : RespPart :=
  { inlineData := some { mimeType := some "image/png", data := dat } }

/-- A response whose first candidate holds the given parts. -/
def mkResp (ps : List RespPart) : GenResponse :=
  { candidates := some [{ content := some { parts := some ps } }] }

/-- An environment whose backend always answers with one PNG part. -/
def envPng : Env := { backend := fun _ _ => .ok (mkResp [pngPart "ZZ"]) }

/-- An environment where the second of the concurrent calls fails and
all others succeed. -/
def envSecondFails : Env :=
  { backend := fun _ i =>
      if i = 1 then .error (GenError.backend "boom") else .ok (mkResp [pngPart "ZZ"]) }

/-- A candidate that does contain inline image data. -/
def goodCand : Candidate :=
  { content := some { parts := some [pngPart "YY"] } }

/-- A candidate with an empty parts array. -/
def emptyCand : Candidate :=
  { content := some { parts := some [] } }

/-- A sample input image. -/
def sampleImg : ImageData := { base64 := "AAA", mimeType := "image/jpeg" }

/-- The incomplete job handle returned by submission. -/
def vOp0 : VideoOp := { done := false, response := none }

/-- The incomplete job handle returned by the first poll. -/
def vOp1 : VideoOp :=
  { done := false, response := some { generatedVideos := none } }

/-- The completed job handle, carrying a video URI. -/
def vOp2 : VideoOp :=
  { done := true
  , response := some
      { generatedVideos := some
          [{ video := some { uri := some "https://dl.example/v1?alt=media" } }] } }

/-- A video environment: submission yields `vOp0`, polling steps the
handle through `vOp1` to `vOp2`. -/
def vEnv : VideoEnv :=
  { submit := fun _ => vOp0
  , pollFn := fun op => if op.response = none then vOp1 else vOp2
  , apiKey := "K" }

/-- A sample video request. -/
def vOpts : GenerateVideoOptions :=
  { prompt := "a dog", inputImage := none, aspect := VideoAspect.wide }

/-- The parts the extraction code can see in a candidate: the content's
parts array when the whole optional chain is present, else nothing. -/
def candParts (c : Candidate) : List RespPart :=
  match c.content with
  | none => []
  | some ct => ct.parts.getD []

/-- A candidate none of whose visible parts carries truthy inline data. -/
def candNoImage (c : Candidate) : Prop :=
  ∀ q ∈ candParts c, partTruthy q = false

/-! ### Helper lemmas -/

/-- Pushing elements one by one onto an accumulator is append of the
mapped list. -/
theorem foldl_push {α β : Type} (f : α → β) (l : List α) (init : List β) :
    l.foldl (fun acc x => acc ++ [f x]) init = init ++ l.map f := by
  induction l generalizing init with
  | nil => simp
  | cons x xs ih => simp [List.foldl, ih]

/-- `promiseAll` fails with the first failure of the list. -/
theorem promiseAll_of_firstErr {l : List (Except GenError String)}
    {e : GenError} (h : firstErr l = some e) : promiseAll l = .error e := by
  induction l with
  | nil => simp [firstErr] at h
  | cons x rest ih =>
    cases x with
    | error e₀ =>
      simp [firstErr] at h
      simp [promiseAll, h]
    | ok v =>
      simp [firstErr] at h
      simp [promiseAll, ih h, Except.map]

/-- A list containing a failure has a first failure. -/
theorem firstErr_isSome_of_mem {l : List (Except GenError String)}
    {e : GenError} (h : Except.error e ∈ l) : ∃ e₀, firstErr l = some e₀ := by
  induction l with
  | nil => cases h
  | cons x rest ih =>
    cases x with
    | error e₀ => exact ⟨e₀, rfl⟩
    | ok v =>
      rcases List.mem_cons.mp h with h' | h'
      · cases h'
      · simpa [firstErr] using ih h'

/-- A completed handle ends the poll loop at once, whatever the fuel. -/
theorem pollLoop_done (pollFn : VideoOp → VideoOp) (fuel : Nat)
    {op : VideoOp} (h : op.done = true) :
    pollLoop pollFn fuel op = some ([], op) := by
  cases fuel with
  | zero => simp [pollLoop, h]
  | succ f => simp [pollLoop, h]

/-- A part list with no truthy inline data has no first inline part. -/
theorem firstInlinePart_eq_none {ps : List RespPart}
    (h : ∀ q ∈ ps, partTruthy q = false) : firstInlinePart ps = none := by
  induction ps with
  | nil => rfl
  | cons p rest ih =>
    have hp := h p (List.mem_cons_self p rest)
    have hr : ∀ q ∈ rest, partTruthy q = false :=
      fun q hq => h q (List.mem_cons_of_mem p hq)
    cases hd : p.inlineData with
    | none => simpa [firstInlinePart, hd] using ih hr
    | some d =>
      have : strTruthy d.data = false := by simpa [partTruthy, hd] using hp
      simpa [firstInlinePart, hd, this] using ih hr

/-- The scan returns the first truthy inline part, past any prefix of
parts without truthy inline data. -/
theorem firstInlinePart_first {pre post : List RespPart} {d : RespInline}
    (hpre : ∀ q ∈ pre, partTruthy q = false) (hd : strTruthy d.data = true) :
    firstInlinePart (pre ++ { inlineData := some d } :: post) = some d := by
  induction pre with
  | nil => simp [firstInlinePart, hd]
  | cons p rest ih =>
    have hp := hpre p (List.mem_cons_self p rest)
    have hr : ∀ q ∈ rest, partTruthy q = false :=
      fun q hq => hpre q (List.mem_cons_of_mem p hq)
    cases hq : p.inlineData with
    | none => simpa [firstInlinePart, hq] using ih hr
    | some d' =>
      have : strTruthy d'.data = false := by simpa [partTruthy, hq] using hp
      simpa [firstInlinePart, hq, this] using ih hr

/-! ### Claim theorems -/

/-- C3: the content-part list assembled by `generateImages` is the
reference images first, in their stored order, then the context image
when present, then the text prompt last — so for reference images
[A, B], context image C and prompt "p" it is exactly [A, B, C, "p"]. -/
theorem parts_ordered (o : GenerateImageOptions) :
    buildParts o =
      o.refImages.map (fun img => ContentPart.inline img.base64 img.mimeType)
      ++ (match o.contextImage with
          | some img => [ContentPart.inline img.base64 img.mimeType]
          | none => [])
      ++ [ContentPart.text o.prompt] := by
  unfold buildParts
  cases h : o.contextImage with
  | none => simp [foldl_push, h]
  | some img => simp [foldl_push, h]

/-- C4: with the "custom" ratio and both dimensions positive, the
ratio string is the raw `w:h` with no reduction to lowest terms; with
either dimension missing it is `1:1`; non-custom ratios use the
enumerated string verbatim. -/
theorem ratio_resolution :
    (∀ (o : GenerateImageOptions) (w h : Nat), o.aspect = Aspect.custom →
      o.width = some w → o.height = some h → 0 < w → 0 < h →
      ratioStr o = toString w ++ ":" ++ toString h)
    ∧ (∀ o : GenerateImageOptions, o.aspect = Aspect.custom →
      (o.width = none ∨ o.height = none) → ratioStr o = "1:1")
    ∧ (∀ o : GenerateImageOptions, o.aspect ≠ Aspect.custom →
      ratioStr o = o.aspect.toStr) := by
  refine ⟨?_, ?_, ?_⟩
  · intro o w h ha hw hh hwp hhp
    have hw0 : w ≠ 0 := by omega
    have hh0 : h ≠ 0 := by omega
    simp [ratioStr, ha, hw, hh, numTruthy, hw0, hh0]
  · intro o ha hmiss
    rcases hmiss with hm | hm
    · simp [ratioStr, ha, hm, numTruthy]
    · simp [ratioStr, ha, hm, numTruthy]
  · intro o ha
    simp [ratioStr, ha]

/-- C4 witness: width 1280 and height 720 give exactly "1280:720";
missing dimensions give "1:1"; the square ratio keeps its canonical
string. -/
theorem ratio_resolution_w :
    ratioStr optsCustomWH = "1280:720" ∧ ratioStr optsCustomNone = "1:1"
    ∧ ratioStr optsBase = "1:1" := by
  refine ⟨?_, ?_, ?_⟩
  · have h := ratio_resolution.1 optsCustomWH 1280 720 rfl rfl rfl
      (by decide) (by decide)
    rw [h]; decide
  · exact ratio_resolution.2.1 optsCustomNone rfl (Or.inl rfl)
  · exact (ratio_resolution.2.2 optsBase (by decide)).trans rfl

/-- C5: image model selection is a pure mapping of the resolution
tier: baseline (1K) selects the fast model, and every higher tier
(2K, 4K) selects the higher-capability model. -/
theorem select_image_model :
    selectImageModel ImageResolution.res1K = MODEL_NANO_BANANA
    ∧ selectImageModel ImageResolution.res2K = MODEL_PRO_IMAGE
    ∧ selectImageModel ImageResolution.res4K = MODEL_PRO_IMAGE
    ∧ ∀ r : ImageResolution, r ≠ ImageResolution.res1K →
        selectImageModel r = MODEL_PRO_IMAGE := by
  refine ⟨rfl, rfl, rfl, ?_⟩
  intro r hr
  cases r with
  | res1K => exact absurd rfl hr
  | res2K => rfl
  | res4K => rfl

/-- C5 witness: the 2K tier selects the higher-capability model. -/
theorem select_image_model_w :
    selectImageModel ImageResolution.res2K = MODEL_PRO_IMAGE :=
  select_image_model.2.2.2 ImageResolution.res2K (by decide)

/-- C8: the image config carries an `imageSize` field exactly when the
selected model is the higher-capability one; the aspect-ratio field
does not depend on the resolution tier; baseline requests carry no
size field. -/
theorem config_size_iff (o : GenerateImageOptions) :
    ((buildConfig o).imageSize.isSome = true ↔
      selectImageModel o.resolution = MODEL_PRO_IMAGE)
    ∧ (∀ r' : ImageResolution,
        (buildConfig { o with resolution := r' }).aspectStr
          = (buildConfig o).aspectStr)
    ∧ (o.resolution = ImageResolution.res1K →
        (buildConfig o).imageSize = none) := by
  refine ⟨?_, ?_, ?_⟩
  · cases hr : o.resolution with
    | res1K =>
      simp only [buildConfig, usePro, hr, selectImageModel]
      decide
    | res2K =>
      simp only [buildConfig, usePro, hr, selectImageModel]
      decide
    | res4K =>
      simp only [buildConfig, usePro, hr, selectImageModel]
      decide
  · intro r'
    rfl
  · intro h
    simp [buildConfig, usePro, h]

/-- C8 witness: the baseline request carries no size field, and its
config's size presence matches the selected model being Pro. -/
theorem config_size_iff_w : (buildConfig optsBase).imageSize = none :=
  (config_size_iff optsBase).2.2 rfl

/-- C9 counterexample: with an empty prompt and no input image the
submitted payload's prompt is the fallback string, not the caller's
(empty) prompt verbatim as the claim requires. -/
theorem video_prompt_cex :
    (buildVideoPayload (handleGenerateOptions "" none VideoAspect.wide)).prompt
      = "Animate this image"
    ∧ (buildVideoPayload
        (handleGenerateOptions "" none VideoAspect.wide)).prompt ≠ "" := by
  exact ⟨rfl, by decide⟩

/-- C9 (amended): the UI applies the fixed fallback prompt whenever
the typed prompt is empty — whether or not an input image is supplied —
and passes any nonempty prompt through to the payload verbatim. -/
theorem video_prompt_fallback (uiPrompt : String) (img : Option ImageData)
    (a : VideoAspect) :
    (uiPrompt = "" →
      (buildVideoPayload (handleGenerateOptions uiPrompt img a)).prompt
        = "Animate this image")
    ∧ (uiPrompt ≠ "" →
      (buildVideoPayload (handleGenerateOptions uiPrompt img a)).prompt
        = uiPrompt) := by
  constructor
  · intro h
    simp [buildVideoPayload, handleGenerateOptions, h]
  · intro h
    simp [buildVideoPayload, handleGenerateOptions, h]

/-- C9 witness: an empty prompt with an input image becomes the
fallback string; the nonempty prompt "hello" is used verbatim. -/
theorem video_prompt_fallback_w :
    (buildVideoPayload
      (handleGenerateOptions "" (some sampleImg) VideoAspect.wide)).prompt
      = "Animate this image"
    ∧ (buildVideoPayload
        (handleGenerateOptions "hello" none VideoAspect.tall)).prompt
      = "hello" :=
  ⟨(video_prompt_fallback "" (some sampleImg) VideoAspect.wide).1 rfl,
   (video_prompt_fallback "hello" none VideoAspect.tall).2 (by decide)⟩

/-- C1: if any of the `count` concurrent calls fails, the whole batch
fails, its failure is the first failure among the call outcomes, and no
partial list of asset references is returned. -/
theorem batch_all_or_nothing (env : Env) (count : Nat)
    (o : GenerateImageOptions) (i : Nat) (e : GenError)
    (hi : (callResults env count o)[i]? = some (Except.error e)) :
    ∃ e₀, firstErr (callResults env count o) = some e₀
      ∧ (generateImagesRun env count o).2 = Except.error e₀
      ∧ ∀ vs : List String,
          (generateImagesRun env count o).2 ≠ Except.ok vs := by
  have hmem : Except.error e ∈ callResults env count o :=
    List.mem_iff_getElem?.mpr ⟨i, hi⟩
  obtain ⟨e₀, he₀⟩ := firstErr_isSome_of_mem hmem
  have hres : (generateImagesRun env count o).2 = Except.error e₀ := by
    simpa [generateImagesRun] using promiseAll_of_firstErr he₀
  refine ⟨e₀, he₀, hres, ?_⟩
  intro vs hvs
  rw [hres] at hvs
  cases hvs

/-- C1 witness: in a batch of three where the second call fails, the
batch as a whole fails with that first failure and yields no list. -/
theorem batch_all_or_nothing_w :
    ∃ e₀, firstErr (callResults envSecondFails 3 optsBase) = some e₀
      ∧ (generateImagesRun envSecondFails 3 optsBase).2 = Except.error e₀
      ∧ ∀ vs : List String,
          (generateImagesRun envSecondFails 3 optsBase).2 ≠ Except.ok vs :=
  batch_all_or_nothing envSecondFails 3 optsBase 1 (GenError.backend "boom") rfl

/-- No index of the mapped backend-call event list holds the gate
event. -/
theorem map_backendCall_ne_ensureKey (l : List Nat) (i : Nat) :
    (l.map Event.backendCall)[i]? ≠ some Event.ensureKey := by
  intro h
  rw [List.getElem?_map] at h
  cases hx : l[i]? with
  | none => rw [hx] at h; cases h
  | some m => rw [hx] at h; simp at h

/-- C6: the trace of a `generateImages` run holds exactly one
credential-gate invocation when the Pro model is selected and none for
baseline, and every gate event precedes every backend-call event. -/
theorem gate_once_before_calls (env : Env) (count : Nat)
    (o : GenerateImageOptions) :
    ((generateImagesRun env count o).1.count Event.ensureKey
        = if usePro o then 1 else 0)
    ∧ (∀ i j k : Nat,
        ((generateImagesRun env count o).1)[i]? = some Event.ensureKey →
        ((generateImagesRun env count o).1)[j]? = some (Event.backendCall k) →
        i < j) := by
  have hmap : ∀ m, ((List.range count).map Event.backendCall)[m]?
      ≠ some Event.ensureKey :=
    fun m => map_backendCall_ne_ensureKey (List.range count) m
  have hzero : ((List.range count).map Event.backendCall).count
      Event.ensureKey = 0 := by
    refine List.count_eq_zero.mpr ?_
    intro hmem
    obtain ⟨m, hm⟩ := List.mem_iff_getElem?.mp hmem
    exact hmap m hm
  constructor
  · cases hp : usePro o with
    | false => simpa [generateImagesRun, hp] using hzero
    | true => simpa [generateImagesRun, hp, List.count_cons] using hzero
  · intro i j k hi hj
    cases hp : usePro o with
    | false =>
      simp only [generateImagesRun, hp, Bool.false_eq_true, if_false,
        List.nil_append] at hi
      exact absurd hi (hmap i)
    | true =>
      simp only [generateImagesRun, hp, if_true, List.singleton_append]
        at hi hj
      cases i with
      | zero =>
        cases j with
        | zero => rw [List.getElem?_cons_zero] at hj; cases hj
        | succ j' => exact Nat.succ_pos j'
      | succ i' =>
        rw [List.getElem?_cons_succ] at hi
        exact absurd hi (hmap i')

/-- C6 witness: a Pro-tier run of two calls has exactly one gate event
in its trace, and the gate event at index 0 precedes the backend call
at index 1. -/
theorem gate_once_before_calls_w :
    ((generateImagesRun envPng 2 optsPro).1.count Event.ensureKey = 1)
    ∧ (0 : Nat) < 1 := by
  constructor
  · exact ((gate_once_before_calls envPng 2 optsPro).1).trans (by rfl)
  · exact (gate_once_before_calls envPng 2 optsPro).2 0 1 0 rfl rfl

/-- C7: per-call extraction scans the response parts in order and
returns the data URL of the first truthy inline part (media type
defaulting to `image/png` when absent); with no inline data in any
part the call fails with the no-image-data error; and a one-call batch
on a response with one inline `image/png` part yields exactly one
asset reference carrying that media type. -/
theorem extract_first_inline :
    (∀ (pre post : List RespPart) (d : RespInline),
      (∀ q ∈ pre, partTruthy q = false) → d.data ≠ "" →
      extractImage (mkResp (pre ++ { inlineData := some d } :: post))
        = .ok (dataUrlOf d))
    ∧ (∀ ps : List RespPart, (∀ q ∈ ps, partTruthy q = false) →
      extractImage (mkResp ps) = .error GenError.noImageData)
    ∧ (∀ (env : Env) (o : GenerateImageOptions) (dat : String), dat ≠ "" →
      (∀ p : ImagePayload, env.backend p 0 = .ok (mkResp [pngPart dat])) →
      (generateImagesRun env 1 o).2
        = .ok ["data:" ++ "image/png" ++ ";base64," ++ dat]) := by
  refine ⟨?_, ?_, ?_⟩
  · intro pre post d hpre hd
    have hds : strTruthy d.data = true := by
      simpa [strTruthy] using hd
    have hfip := @firstInlinePart_first pre post d hpre hds
    simp [extractImage, mkResp, hfip]
  · intro ps hps
    have hfip := firstInlinePart_eq_none hps
    simp [extractImage, mkResp, hfip]
  · intro env o dat hdat hb
    have hds : strTruthy dat = true := by
      simpa [strTruthy] using hdat
    have hmt : strTruthy "image/png" = true := by decide
    have hone : extractImage (mkResp [pngPart dat])
        = .ok ("data:" ++ "image/png" ++ ";base64," ++ dat) := by
      simp [extractImage, mkResp, pngPart, firstInlinePart, hds, hmt,
        dataUrlOf]
    simp only [generateImagesRun, callResults]
    rw [show List.range 1 = [0] from rfl]
    simp [hb (buildImagePayload o), hone, promiseAll, Except.map]

/-- C7 witness: a leading part without inline data is skipped and the
first inline part (with no media type, so the `image/png` default) is
returned; a one-call batch against a PNG response yields exactly one
`image/png` asset reference. -/
theorem extract_first_inline_w :
    extractImage (mkResp [{ inlineData := none },
        { inlineData := some { mimeType := none, data := "QQ" } }])
      = .ok (dataUrlOf { mimeType := none, data := "QQ" })
    ∧ (generateImagesRun envPng 1 optsBase).2
      = .ok ["data:" ++ "image/png" ++ ";base64," ++ "ZZ"] :=
  ⟨extract_first_inline.1 [{ inlineData := none }] []
      { mimeType := none, data := "QQ" } (by decide) (by decide),
   extract_first_inline.2.2 envPng optsBase "ZZ" (by decide) (fun _ => rfl)⟩

/-- C10: extraction looks only at the first candidate of the response —
when the first candidate carries no truthy inline data the call fails
with the no-image-data error even if a later candidate carries image
data, and a response with a missing or empty candidates array fails the
same way instead of crashing. -/
theorem first_candidate_only :
    (∀ (c : Candidate) (cs : List Candidate), candNoImage c →
      extractImage { candidates := some (c :: cs) }
        = .error GenError.noImageData)
    ∧ extractImage { candidates := none } = .error GenError.noImageData
    ∧ extractImage { candidates := some [] } = .error GenError.noImageData := by
  refine ⟨?_, rfl, rfl⟩
  intro c cs hc
  cases hco : c.content with
  | none => simp [extractImage, hco]
  | some ct =>
    cases hps : ct.parts with
    | none => simp [extractImage, hco, hps]
    | some ps =>
      have hps' : ∀ q ∈ ps, partTruthy q = false := by
        intro q hq
        have := hc q
        simp [candParts, hco, hps] at this
        exact this hq
      simp [extractImage, hco, hps, firstInlinePart_eq_none hps']

/-- C10 witness: a first candidate with an empty parts array fails the
call with the no-image-data error even though the second candidate
carries inline image data. -/
theorem first_candidate_only_w :
    extractImage { candidates := some [emptyCand, goodCand] }
      = .error GenError.noImageData :=
  first_candidate_only.1 emptyCand [goodCand]
    (by intro q hq; simp [candParts, emptyCand] at hq)

/-- C2: when the submitted handle and the first refreshed handle are
incomplete and the second refreshed handle is complete with a valid
reference, the video driver performs exactly two sleep/poll cycles —
each a 5000 ms sleep followed by one poll of the prior handle — and
returns the result URI with the access token appended as
`uri ++ "&key=" ++ apiKey`. -/
theorem video_two_polls (env : VideoEnv) (fuel : Nat)
    (o : GenerateVideoOptions) (u : String) (hf : 2 ≤ fuel)
    (h0 : (env.submit (buildVideoPayload o)).done = false)
    (h1 : (env.pollFn (env.submit (buildVideoPayload o))).done = false)
    (h2 : (env.pollFn (env.pollFn
        (env.submit (buildVideoPayload o)))).done = true)
    (hu : extractVideoUri (env.pollFn (env.pollFn
        (env.submit (buildVideoPayload o)))) = .ok u) :
    generateVideoRun env fuel o =
      some ([VidEvent.sleep 5000, VidEvent.pollCall,
             VidEvent.sleep 5000, VidEvent.pollCall],
            .ok (u ++ "&key=" ++ env.apiKey)) := by
  obtain ⟨k, rfl⟩ : ∃ k, fuel = k + 2 := ⟨fuel - 2, by omega⟩
  have hdone := pollLoop_done env.pollFn k h2
  simp only [generateVideoRun, pollLoop, h0, h1, Bool.false_eq_true,
    if_false, hdone]
  simp [hu, Except.map, appendKey]

/-- C2 witness: the concrete environment whose handles go incomplete,
incomplete, complete returns after exactly two sleep/poll cycles with
the key appended to the URI. -/
theorem video_two_polls_w :
    generateVideoRun vEnv 2 vOpts =
      some ([VidEvent.sleep 5000, VidEvent.pollCall,
             VidEvent.sleep 5000, VidEvent.pollCall],
            .ok ("https://dl.example/v1?alt=media" ++ "&key=" ++ "K")) :=
  video_two_polls vEnv 2 vOpts "https://dl.example/v1?alt=media"
    (by decide) rfl rfl rfl rfl

end Gemini
